import Mathlib

/-!
Verification of the Media Session Synchronization Core of the `empress`
repository, as a shallow embedding of `src/mpris_client.rs`, `src/ui.rs`
and `src/progress_ring_button.rs`.

Durations are modelled as natural numbers of nanoseconds.  The external
MPRIS capability (the `mpris` crate's `PlayerFinder` / `Player`) is
modelled at its interface boundary: a `Player` carries the results the
code queries from it, a `Finder` carries the results of `find_by_name`,
`find_active` and `find_all`, and fallible operations are `Option`s.
-/

namespace Empress

/-- Type `PlayerStatus` from `src/mpris_client.rs` (derives `Default` with
`Stopped` marked `#[default]`). -/
inductive PlayerStatus where
  | Stopped
  | Playing
  | Paused
deriving DecidableEq, Repr

/-- The default `PlayerStatus` (the `#[default]` variant). -/
def PlayerStatus.default : PlayerStatus := .Stopped

/-- Type `MediaInfo` from `src/mpris_client.rs`.  `position` and `length` are
durations in nanoseconds. -/
structure MediaInfo where
  title : String
  artist : String
  album : String
  art_url : Option String
  status : PlayerStatus
  position : Option Nat
  length : Option Nat
deriving DecidableEq, Repr

/-- Value `MediaInfo::default()`: the struct derives `Default`, so every string
field is the empty string, every `Option` is `None`, and the status is
`PlayerStatus::default() = Stopped`. -/
def MediaInfo.default : MediaInfo :=
  { title := "", artist := "", album := "", art_url := none,
    status := PlayerStatus.default, position := none, length := none }

/-- The metadata the code reads from `player.get_metadata()`: each accessor
used by `get_media_info` is fallible, hence an `Option` field.
`length_micros` is the raw metadata length in microseconds (a signed value
the code converts with `Duration::try_from(l).ok()`). -/
structure Metadata where
  title : Option String
  artists : Option (List String)
  album_name : Option String
  art_url : Option String
  length_micros : Option Int
deriving DecidableEq, Repr

/-- A bound MPRIS player, modelled at the interface boundary by the results
of the queries `get_media_info` performs on it: `metadata` is
`get_metadata().ok()`, `playback_status` is `get_playback_status().ok()`
already mapped through `From<PlaybackStatus>`, and `position` is
`get_position().ok()` in nanoseconds. -/
structure Player where
  identity : String
  metadata : Option Metadata
  playback_status : Option PlayerStatus
  position : Option Nat
deriving DecidableEq, Repr

/-- A constructed `PlayerFinder`, modelled by the results of its three
queries.  `find_all` is `Option` because `finder.find_all()` is fallible. -/
structure Finder where
  find_by_name : String → Option Player
  find_active : Option Player
  find_all : Option (List Player)

/-- Rust `Duration::try_from(l).ok()` for a metadata length of `l` microseconds:
fails on negative values, otherwise yields the duration in nanoseconds. -/
def durationTryFromMicros (l : Int) : Option Nat :=
  if 0 ≤ l then some (l.toNat * 1000) else none

/-- Function `MprisClient::get_media_info` from `src/mpris_client.rs` lines 168-200. -/
def getMediaInfo (player : Player) : MediaInfo :=
  let status := player.playback_status.getD PlayerStatus.default
  let fields :=
    match player.metadata with
    | some m =>
      (m.title.getD "Unknown",
       (m.artists.bind (fun a => a.head?)).getD "Unknown Artist",
       m.album_name.getD "",
       m.art_url)
    | none => ("No media playing", "", "", none)
  { title := fields.1, artist := fields.2.1, album := fields.2.2.1,
    art_url := fields.2.2.2, status := status,
    position := player.position,
    length := player.metadata.bind (fun m => m.length_micros.bind durationTryFromMicros) }

/-- Session resolution as performed by the monitoring (poller) loop in
`MprisClient::start_monitoring`, lines 137-145: with a preferred player,
`find_by_name(preferred).ok().or_else(|| find_active().ok())`; otherwise
`find_active().ok()`. -/
def resolvePlayer (finder : Finder) (pref : Option String) : Option Player :=
  match pref with
  | some preferred => (finder.find_by_name preferred).orElse (fun _ => finder.find_active)
  | none => finder.find_active

/-- One tick of the poller loop in `MprisClient::start_monitoring`,
lines 131-161: if the finder cannot be constructed, or no player resolves,
the emitted snapshot is `MediaInfo::default()`; otherwise it is
`get_media_info` of the resolved player.  `finderResult` is
`PlayerFinder::new()` as an `Option`. -/
def pollTick (finderResult : Option Finder) (pref : Option String) : MediaInfo :=
  match finderResult with
  | some finder =>
    match resolvePlayer finder pref with
    | some player => getMediaInfo player
    | none => MediaInfo.default
  | none => MediaInfo.default

/-- Session resolution as performed by the command-dispatcher loop in
`MprisClient::new`, lines 64-82 (the branch taken when the finder was
constructed): identical policy, written with explicit `if let` chains. -/
def dispatcherResolve (finder : Finder) (pref : Option String) : Option Player :=
  match pref with
  | some preferred =>
    match finder.find_by_name preferred with
    | some p => some p
    | none =>
      match finder.find_active with
      | some active => some active
      | none => none
  | none =>
    match finder.find_active with
    | some active => some active
    | none => none

/-- Type `Command` from `src/mpris_client.rs`. -/
inductive Command where
  | PlayPause
  | Next
  | Previous
  | Seek (offset_micros : Int)
deriving DecidableEq, Repr

/-- The player-reference update at the top of each dispatcher-loop
iteration, lines 61-83: the `mut player` variable is overwritten with a
fresh resolution only when `PlayerFinder::new()` succeeded; when it fails,
`player` keeps the value left over from the previous iteration. -/
def dispatcherUpdatePlayer (finderResult : Option Finder) (pref : Option String)
    (player : Option Player) : Option Player :=
  match finderResult with
  | some finder => dispatcherResolve finder pref
  | none => player

/-- One full iteration of the dispatcher loop, lines 60-98: update the
player reference, then drain at most one command (non-blocking) and apply
it to the current player if one exists.  Returns the player variable after
the iteration and, when a command was applied, the player/command pair it
was applied to. -/
def dispatcherIter (finderResult : Option Finder) (pref : Option String)
    (cmd : Option Command) (player : Option Player) :
    Option Player × Option (Player × Command) :=
  let player := dispatcherUpdatePlayer finderResult pref player
  match cmd, player with
  | some c, some p => (some p, some (p, c))
  | _, _ => (player, none)

/-- Function `MprisClient::get_available_players`, lines 108-120: empty list when
the finder cannot be constructed or `find_all` fails, else the identities. -/
def getAvailablePlayers (finderResult : Option Finder) : List String :=
  match finderResult with
  | some finder =>
    match finder.find_all with
    | some players => players.map (fun p => p.identity)
    | none => []
  | none => []

/-- The error an `mpsc::Sender::send` returns when the receiving half has
been dropped. -/
inductive SendErr where
  | disconnected
deriving DecidableEq, Repr

/-- Rust `std::sync::mpsc::Sender::send`: succeeds exactly when the consumer
(receiver) is still alive, otherwise returns a `SendError`; it never
panics. -/
def channelSend (consumerAlive : Bool) (_c : Command) : Except SendErr Unit :=
  if consumerAlive then .ok () else .error .disconnected

/-- Function `MprisClient::play_pause`, lines 202-205: `send(...)?` then `Ok(())`. -/
def clientPlayPause (consumerAlive : Bool) : Except SendErr Unit :=
  channelSend consumerAlive .PlayPause

/-- Function `MprisClient::next`, lines 207-210. -/
def clientNext (consumerAlive : Bool) : Except SendErr Unit :=
  channelSend consumerAlive .Next

/-- Function `MprisClient::previous`, lines 212-215. -/
def clientPrevious (consumerAlive : Bool) : Except SendErr Unit :=
  channelSend consumerAlive .Previous

/-- Function `MprisClient::seek`, lines 217-220. -/
def clientSeek (consumerAlive : Bool) (offset_micros : Int) : Except SendErr Unit :=
  channelSend consumerAlive (.Seek offset_micros)

/-- A finder in a world with no sessions at all: every query fails. -/
def emptyFinder : Finder :=
  { find_by_name := fun _ => none, find_active := none, find_all := none }

/-! ## Reconciliation engine (`src/ui.rs`, `build_ui` lines 162-315) -/

/-- Type `StatusHistoryEntry` from `src/ui.rs` lines 14-19; the `Instant`
timestamp is modelled as a natural number. -/
structure StatusHistoryEntry where
  status : PlayerStatus
  title : String
  artist : String
  timestamp : Nat
deriving DecidableEq, Repr

/-- The reconciliation loop's memory: the `last_art_url`, `last_status`,
`last_title`, `last_artist`, `initial_load_done` and `history` cells of
`build_ui` (`src/ui.rs` lines 163-174).  History is newest first. -/
structure ObservedState where
  last_art_url : Option String
  last_status : PlayerStatus
  last_title : String
  last_artist : String
  initial_load_done : Bool
  history : List StatusHistoryEntry
deriving DecidableEq, Repr

/-- The initial values of the reconciliation memory as set up in
`build_ui`: no art URL, `Stopped`, empty strings, initial load not done,
empty history. -/
def initialObserved : ObservedState :=
  { last_art_url := none, last_status := .Stopped, last_title := "",
    last_artist := "", initial_load_done := false, history := [] }

/-- Flag `title_changed` (`src/ui.rs` lines 221-225; the poisoned-lock fallback
cannot occur in this single-threaded model). -/
def titleChanged (s : ObservedState) (info : MediaInfo) : Bool :=
  s.last_title != info.title

/-- Flag `artist_changed` (`src/ui.rs` lines 227-231). -/
def artistChanged (s : ObservedState) (info : MediaInfo) : Bool :=
  s.last_artist != info.artist

/-- Flag `url_changed` (`src/ui.rs` lines 233-237). -/
def urlChanged (s : ObservedState) (info : MediaInfo) : Bool :=
  s.last_art_url != info.art_url

/-- Flag `status_changed` (`src/ui.rs` lines 275-279). -/
def statusChanged (s : ObservedState) (info : MediaInfo) : Bool :=
  s.last_status != info.status

/-- Flag `force_art_update` (`src/ui.rs` line 245):
`is_initial || url_changed || title_changed || artist_changed`. -/
def forceArtUpdate (s : ObservedState) (info : MediaInfo) : Bool :=
  !s.initial_load_done || urlChanged s info || titleChanged s info || artistChanged s info

/-- The `last_art_url` update (`src/ui.rs` lines 258-265): only when one of
url/title/artist changed, and only when the new snapshot actually carries
an art URL, is the remembered URL overwritten. -/
def nextLastArtUrl (s : ObservedState) (info : MediaInfo) : Option String :=
  if urlChanged s info || titleChanged s info || artistChanged s info then
    match info.art_url with
    | some u => some u
    | none => s.last_art_url
  else
    s.last_art_url

/-- The history-append condition (`src/ui.rs` line 281):
`status_changed || title_changed || artist_changed`. -/
def appendCondition (s : ObservedState) (info : MediaInfo) : Bool :=
  statusChanged s info || titleChanged s info || artistChanged s info

/-- The history size limit (`src/ui.rs` lines 303-306): after
`push_front`, `pop_back` while the length exceeds 50 — i.e. keep the first
50 entries. -/
def trimHistory (l : List StatusHistoryEntry) : List StatusHistoryEntry :=
  l.take 50

/-- The result of reconciling one snapshot: the updated memory, whether the
Art Fetch Scheduler was invoked (`force_art_update`), and whether a history
entry was appended. -/
structure ReconOut where
  state : ObservedState
  force_art_update : Bool
  appended : Bool
deriving DecidableEq, Repr

/-- One pass of the reconciliation loop body over a single snapshot
(`src/ui.rs` lines 220-311), with the widget side effects factored out:
compute the change flags against the memory as it stood before this
snapshot, update `last_art_url` (lines 258-265), mark initial load done
(lines 267-272), and on `status/title/artist` change update the remembered
triple and append a history entry (lines 281-311). -/
def reconcileStep (s : ObservedState) (info : MediaInfo) (now : Nat) : ReconOut :=
  let art1 := nextLastArtUrl s info
  let init1 := if !s.initial_load_done then true else s.initial_load_done
  if appendCondition s info then
    { state :=
        { last_art_url := art1, last_status := info.status, last_title := info.title,
          last_artist := info.artist, initial_load_done := init1,
          history := trimHistory
            ({ status := info.status, title := info.title, artist := info.artist,
               timestamp := now } :: s.history) },
      force_art_update := forceArtUpdate s info,
      appended := true }
  else
    { state := { s with last_art_url := art1, initial_load_done := init1 },
      force_art_update := forceArtUpdate s info,
      appended := false }

/-- Draining a buffered list of snapshots in order (the
`while let Ok(info) = media_receiver.try_recv()` loop), returning the final
memory together with the total number of art-fetch invocations and history
appends. -/
def reconcileMany (s : ObservedState) : List (MediaInfo × Nat) → ObservedState × Nat × Nat
  | [] => (s, 0, 0)
  | (info, now) :: rest =>
    let out := reconcileStep s info now
    let r := reconcileMany out.state rest
    (r.1, (if out.force_art_update then 1 else 0) + r.2.1,
      (if out.appended then 1 else 0) + r.2.2)

/-- A snapshot that is unchanged relative to the previously observed state:
title, artist, art reference and playback status all equal the remembered
values. -/
def UnchangedFor (s : ObservedState) (info : MediaInfo) : Prop :=
  info.title = s.last_title ∧ info.artist = s.last_artist ∧
  info.art_url = s.last_art_url ∧ info.status = s.last_status

instance (s : ObservedState) (info : MediaInfo) : Decidable (UnchangedFor s info) := by
  unfold UnchangedFor
  infer_instance

/-! ## Widget update (`src/ui.rs`, `update_ui_widgets` lines 483-628, and
`src/progress_ring_button.rs`, `set_progress` lines 111-115) -/

/-- A decoded texture, opaque to this development. -/
structure Texture where
  tag : String
deriving DecidableEq, Repr

/-- The environment the art-loading code runs against, modelled at the
interface boundary: `fetchWeb url` is the whole
download-bytes-decode-pixbuf pipeline for a web URL (`none` on any failure
at any stage); `urlDecode` is `urlencoding::decode` (`none` on decode
error); `pathExists` is `Path::exists`; `loadFile` is
`Pixbuf::from_file` (`none` on failure). -/
structure ArtEnv where
  fetchWeb : String → Option Texture
  urlDecode : String → Option String
  pathExists : String → Bool
  loadFile : String → Option Texture

/-- The widget state touched by `update_ui_widgets`: label texts and
visibilities, the displayed paintable and art-container visibility, the
play/pause icon and style, and the progress ring value (a rational, in
place of `f64`). -/
structure UiState where
  title : String
  artist : String
  album : String
  artist_visible : Bool
  album_visible : Bool
  art : Option Texture
  art_container_visible : Bool
  icon_name : String
  paused_style : Bool
  progress : ℚ
deriving DecidableEq, Repr

/-- The local path used for non-web URLs (`src/ui.rs` lines 508-512):
strip a leading `file://` scheme if present ("file://" is 7 characters). -/
def filePathOf (art_url : String) : String :=
  if art_url.startsWith "file://" then art_url.drop 7 else art_url

/-- Rust `Duration::as_secs` for a duration of `n` nanoseconds. -/
def asSecs (n : Nat) : Nat := n / 1000000000

/-- Rust `Duration::as_secs_f64` for a duration of `n` nanoseconds, as an exact
rational. -/
def asSecsQ (n : Nat) : ℚ := (n : ℚ) / 1000000000

/-- The raw progress value computed in `update_ui_widgets` lines 617-627:
`position.as_secs_f64() / length.as_secs_f64()` when both are present and
`length.as_secs() > 0`, else `0`. -/
def progressRaw (position length : Option Nat) : ℚ :=
  match position, length with
  | some p, some l => if 0 < asSecs l then asSecsQ p / asSecsQ l else 0
  | _, _ => 0

/-- Method `ProgressRingButton::set_progress`
(`src/progress_ring_button.rs` lines 111-115): the stored value is the
argument clamped to `[0, 1]`. -/
def setProgress (x : ℚ) : ℚ := min (max x 0) 1

/-- The art-loading branch of `update_ui_widgets` (lines 501-603), run only
when `force_art_update` holds: a missing or empty URL clears the art and
hides the container; a web URL goes through the download/decode pipeline;
anything else is percent-decoded (falling back to the raw path on decode
error), checked for existence, and loaded from the filesystem; each failure
clears the art and hides the container. -/
def loadArt (env : ArtEnv) (ui : UiState) (art_url : Option String) : UiState :=
  match art_url with
  | none => { ui with art := none, art_container_visible := false }
  | some u =>
    if u.isEmpty then
      { ui with art := none, art_container_visible := false }
    else
      let file_path := filePathOf u
      if u.startsWith "http://" || u.startsWith "https://" then
        match env.fetchWeb u with
        | some tex => { ui with art := some tex, art_container_visible := true }
        | none => { ui with art := none, art_container_visible := false }
      else
        let decoded := (env.urlDecode file_path).getD file_path
        if env.pathExists decoded then
          match env.loadFile decoded with
          | some tex => { ui with art := some tex, art_container_visible := true }
          | none => { ui with art := none, art_container_visible := false }
        else
          { ui with art := none, art_container_visible := false }

/-- Function `update_ui_widgets` (`src/ui.rs` lines 483-628): set label texts and
visibilities, update art only when `force_art_update`, set the play/pause
icon and style from the status, and set the progress ring to the clamped
progress value. -/
def updateUiWidgets (env : ArtEnv) (ui : UiState) (info : MediaInfo)
    (force_art_update : Bool) : UiState :=
  let ui :=
    { ui with
      title := info.title
      artist := info.artist
      album := info.album
      artist_visible := !info.artist.isEmpty
      album_visible := !info.album.isEmpty }
  let ui := if force_art_update then loadArt env ui info.art_url else ui
  let is_paused := match info.status with | .Playing => false | _ => true
  { ui with
    icon_name := if is_paused then "media-playback-start-symbolic"
                 else "media-playback-pause-symbolic"
    paused_style := is_paused
    progress := setProgress (progressRaw info.position info.length) }

/-! ## Art-retry process.

The periodic retry loop referenced by the specification (section 4.5 and
the design note about its clear-on-success asymmetry) is not among the
provided source files; it is modelled from the spec below. -/

/-- Fetch outcome per art reference, as recorded by the retry process. -/
inductive FetchOutcome where
  | NotAttempted
  | Loaded
  | Failed
deriving DecidableEq, Repr

/-- Modelled from the spec: the state the periodic art-retry process reads
(the recorded art reference, its fetch outcome, and the timestamp in
milliseconds of the last fetch attempt); the retry loop itself is not in
the provided source files. -/
structure RetryState where
  art_ref : Option String
  outcome : FetchOutcome
  last_attempt : Nat
deriving DecidableEq, Repr

/-- Modelled from the spec: the retry condition — an art reference is
currently recorded, its outcome is not `Loaded`, and at least one retry
interval has elapsed since the last attempt timestamp. -/
def retryDue (interval now : Nat) (s : RetryState) : Bool :=
  s.art_ref.isSome && (s.outcome != .Loaded) && decide (s.last_attempt + interval ≤ now)

/-- Modelled from the spec: one tick of the periodic retry process at time
`now`: when due, perform exactly one fetch attempt (whose result is
`result`) and record the new outcome and attempt timestamp; otherwise do
nothing.  Returns the state and the number of attempts performed (0 or 1). -/
def retryTick (interval now : Nat) (result : FetchOutcome) (s : RetryState) :
    RetryState × Nat :=
  if retryDue interval now s then
    ({ s with outcome := result, last_attempt := now }, 1)
  else
    (s, 0)

/-- Modelled from the spec: a sequence of retry ticks, each given by its
time and the outcome a fetch attempt at that time would produce; returns
the final state and the total number of attempts performed. -/
def retryTicks (interval : Nat) (s : RetryState) :
    List (Nat × FetchOutcome) → RetryState × Nat
  | [] => (s, 0)
  | (now, result) :: rest =>
    let r := retryTick interval now result s
    let q := retryTicks interval r.1 rest
    (q.1, r.2 + q.2)

/-! ## Concrete instances used by the spec scenarios -/

/-- The snapshot of the spec scenario: title "A", artist "X", status
`Playing`, art reference `http://h/1.png`. -/
def scenarioSnapshot : MediaInfo :=
  { title := "A", artist := "X", album := "", art_url := some "http://h/1.png",
    status := .Playing, position := none, length := none }

/-- Reconciliation memory after the scenario snapshot has been observed:
art reference `http://h/1.png` remembered, initial load done. -/
def observedAfterScenario : ObservedState :=
  { last_art_url := some "http://h/1.png", last_status := .Playing,
    last_title := "A", last_artist := "X", initial_load_done := true,
    history := [{ status := .Playing, title := "A", artist := "X", timestamp := 0 }] }

/-- The scenario snapshot with its art reference removed and title, artist
and status unchanged. -/
def scenarioSnapshotNoArt : MediaInfo :=
  { title := "A", artist := "X", album := "", art_url := none,
    status := .Playing, position := none, length := none }

/-- A snapshot whose track is half a second into a sub-second (but
nonzero) length: position 0.25 s, length 0.5 s, in nanoseconds. -/
def subSecondInfo : MediaInfo :=
  { title := "A", artist := "X", album := "", art_url := none,
    status := .Playing, position := some 250000000, length := some 500000000 }

/-- A snapshot 5 s into a 10 s track. -/
def halfwayInfo : MediaInfo :=
  { title := "A", artist := "X", album := "", art_url := none,
    status := .Playing, position := some 5000000000, length := some 10000000000 }

/-- A player handle left over from an earlier dispatcher-loop iteration. -/
def stalePlayer : Player :=
  { identity := "Old", metadata := none, playback_status := none, position := none }

/-- The player a fresh resolution yields in the witness world. -/
def freshPlayer : Player :=
  { identity := "Fresh", metadata := none, playback_status := none, position := none }

/-- A finder whose active session is `freshPlayer` and that knows no
player by name. -/
def witnessFinder : Finder :=
  { find_by_name := fun _ => none, find_active := some freshPlayer,
    find_all := some [freshPlayer] }

/-- Retry-process state right after a failed fetch attempt at time 0 for
the scenario art reference. -/
def failedRetryState : RetryState :=
  { art_ref := some "http://h/1.png", outcome := .Failed, last_attempt := 0 }

/-- An art environment in which every external operation fails. -/
def trivialArtEnv : ArtEnv :=
  { fetchWeb := fun _ => none, urlDecode := fun _ => none,
    pathExists := fun _ => false, loadFile := fun _ => none }

/-- The widget state as `build_content` constructs it: title label
"No media playing", empty artist/album, no art, hidden art container,
play icon with the paused (suggested-action) style, progress 0. -/
def initialUi : UiState :=
  { title := "No media playing", artist := "", album := "",
    artist_visible := true, album_visible := true,
    art := none, art_container_visible := false,
    icon_name := "media-playback-start-symbolic", paused_style := true,
    progress := 0 }

/-! ## Helper lemmas -/

/-- Both branches of `reconcileStep` report the same `force_art_update`
flag, computed from the pre-snapshot memory. -/
theorem reconcileStep_force (s : ObservedState) (info : MediaInfo) (now : Nat) :
    (reconcileStep s info now).force_art_update = forceArtUpdate s info := by
  unfold reconcileStep
  split <;> split <;> rfl

/-- After any reconciliation step the initial-load flag is set. -/
theorem reconcileStep_init (s : ObservedState) (info : MediaInfo) (now : Nat) :
    (reconcileStep s info now).state.initial_load_done = true := by
  unfold reconcileStep
  split <;> split <;> simp_all

/-- Both branches of `reconcileStep` store the same `last_art_url`. -/
theorem reconcileStep_art (s : ObservedState) (info : MediaInfo) (now : Nat) :
    (reconcileStep s info now).state.last_art_url = nextLastArtUrl s info := by
  unfold reconcileStep
  split <;> split <;> rfl

/-- Both branches of `reconcileStep` report whether a history entry was
appended via the append condition. -/
theorem reconcileStep_appended (s : ObservedState) (info : MediaInfo) (now : Nat) :
    (reconcileStep s info now).appended = appendCondition s info := by
  unfold reconcileStep
  split <;> split <;> simp_all

/-- A snapshot that matches the remembered state produces no append, a
forced update exactly on initial load, and only flips the initial-load
flag. -/
theorem reconcileStep_unchanged {s : ObservedState} {info : MediaInfo} (now : Nat)
    (h : UnchangedFor s info) :
    reconcileStep s info now =
      { state := { s with initial_load_done := true },
        force_art_update := !s.initial_load_done, appended := false } := by
  obtain ⟨h1, h2, h3, h4⟩ := h
  cases hini : s.initial_load_done <;>
    simp [reconcileStep, nextLastArtUrl, appendCondition, forceArtUpdate,
      titleChanged, artistChanged, urlChanged, statusChanged, h1, h2, h3, h4, hini]

/-- Marking the initial load done does not affect which snapshots count as
unchanged. -/
theorem unchangedFor_markDone (s : ObservedState) (info : MediaInfo) :
    UnchangedFor { s with initial_load_done := true } info ↔ UnchangedFor s info := by
  unfold UnchangedFor
  constructor <;> exact fun h => h

/-- Draining snapshots that all match the remembered state appends nothing
and fetches at most once (exactly on initial load). -/
theorem reconcileMany_unchanged (s : ObservedState) (l : List (MediaInfo × Nat))
    (h : ∀ p ∈ l, UnchangedFor s p.1) :
    (reconcileMany s l).2.2 = 0 ∧
    (reconcileMany s l).2.1 = (if l.isEmpty || s.initial_load_done then 0 else 1) := by
  induction l generalizing s with
  | nil => simp [reconcileMany]
  | cons p rest ih =>
    obtain ⟨info, now⟩ := p
    have hhead : UnchangedFor s info := h _ (List.mem_cons_self _ _)
    have hrest : ∀ q ∈ rest, UnchangedFor { s with initial_load_done := true } q.1 :=
      fun q hq => (unchangedFor_markDone s q.1).mpr (h q (List.mem_cons_of_mem _ hq))
    have step := reconcileStep_unchanged now hhead
    have tail := ih { s with initial_load_done := true } hrest
    unfold reconcileMany
    rw [step]
    rcases tail with ⟨t1, t2⟩
    simp only [t1, t2]
    cases s.initial_load_done <;> simp

/-- The progress value stored by `update_ui_widgets` is the clamped raw
progress of the snapshot, whatever the widget state and force flag. -/
theorem updateUiWidgets_progress (env : ArtEnv) (ui : UiState) (info : MediaInfo)
    (force_art_update : Bool) :
    (updateUiWidgets env ui info force_art_update).progress =
      setProgress (progressRaw info.position info.length) := rfl

/-- The clamped progress value lies in the unit interval. -/
theorem setProgress_mem (x : ℚ) : 0 ≤ setProgress x ∧ setProgress x ≤ 1 := by
  constructor
  · exact le_min (le_max_right x 0) zero_le_one
  · exact min_le_right _ _

/-! ## Claims -/

/-- C1 (amended): on every poll tick where the finder cannot be
constructed or no session resolves, the emitted snapshot is
`MediaInfo::default()`, whose title, artist and album are the empty
string, art reference, position and length are absent, and playback
state is `Stopped` (the emitted title is the empty string, not
"No media playing"). -/
theorem c1_empty_snapshot (finderResult : Option Finder) (pref : Option String)
    (h : finderResult = none ∨
      ∃ f, finderResult = some f ∧ resolvePlayer f pref = none) :
    pollTick finderResult pref = MediaInfo.default ∧
    MediaInfo.default.title = "" ∧ MediaInfo.default.artist = "" ∧
    MediaInfo.default.album = "" ∧ MediaInfo.default.art_url = none ∧
    MediaInfo.default.position = none ∧ MediaInfo.default.length = none ∧
    MediaInfo.default.status = .Stopped := by
  refine ⟨?_, rfl, rfl, rfl, rfl, rfl, rfl, rfl⟩
  rcases h with h | ⟨f, rfl, hf⟩
  · subst h; rfl
  · simp [pollTick, hf]

/-- Witness for C1 at the concrete tick where the finder construction
fails. -/
theorem c1_empty_snapshot_witness :
    pollTick none none = MediaInfo.default ∧ MediaInfo.default.title = "" :=
  ⟨(c1_empty_snapshot none none (Or.inl rfl)).1,
   (c1_empty_snapshot none none (Or.inl rfl)).2.1⟩

/-- Counterexample to C1 as stated: on a tick with no resolvable session
the emitted snapshot's title is the empty string, not "No media playing". -/
theorem c1_counterexample :
    (pollTick none none).title = "" ∧ (pollTick none none).title ≠ "No media playing" := by
  constructor
  · rfl
  · decide

/-- C2: for every snapshot processed by the reconciliation loop, the
forced-art-update flag is true exactly when the initial load is not yet
done, or the art reference, title or artist differs from the previously
observed state; in particular it is true whenever `initial_load_done` is
false. -/
theorem c2_force_flag (s : ObservedState) (info : MediaInfo) (now : Nat) :
    ((reconcileStep s info now).force_art_update = true ↔
      (s.initial_load_done = false ∨ s.last_art_url ≠ info.art_url ∨
       s.last_title ≠ info.title ∨ s.last_artist ≠ info.artist)) ∧
    (s.initial_load_done = false →
      (reconcileStep s info now).force_art_update = true) := by
  constructor
  · rw [reconcileStep_force]
    simp [forceArtUpdate, urlChanged, titleChanged, artistChanged,
      Bool.or_eq_true, bne_iff_ne]
    tauto
  · intro hini
    rw [reconcileStep_force]
    simp [forceArtUpdate, hini]

/-- Witness for C2 at the initial reconciliation state. -/
theorem c2_force_flag_witness :
    (reconcileStep initialObserved MediaInfo.default 0).force_art_update = true :=
  (c2_force_flag initialObserved MediaInfo.default 0).2 rfl

/-- C3: a run of snapshots all equal to the previously observed state
performs zero history appends, and at most one art fetch (exactly the
initial-load one); and the spec scenario — two identical snapshots with
title "A", artist "X", status Playing, art `http://h/1.png`, from the
initial state — yields exactly one art-fetch attempt and one history
entry in total. -/
theorem c3_no_change_no_effects :
    (∀ (s : ObservedState) (l : List (MediaInfo × Nat)),
      (∀ p ∈ l, UnchangedFor s p.1) →
      (reconcileMany s l).2.2 = 0 ∧
      (reconcileMany s l).2.1 = (if l.isEmpty || s.initial_load_done then 0 else 1)) ∧
    (reconcileMany initialObserved [(scenarioSnapshot, 0), (scenarioSnapshot, 1)]).2
      = (1, 1) := by
  constructor
  · exact reconcileMany_unchanged
  · decide

/-- Witness for C3: one snapshot identical to the initial observed state
triggers the single initial-load fetch and no history append. -/
theorem c3_no_change_no_effects_witness :
    (reconcileMany initialObserved [(MediaInfo.default, 0)]).2.2 = 0 ∧
    (reconcileMany initialObserved [(MediaInfo.default, 0)]).2.1 = 1 := by
  have h := c3_no_change_no_effects.1 initialObserved [(MediaInfo.default, 0)]
    (by decide)
  exact ⟨h.1, by simpa using h.2⟩

/-- C4: session resolution implements the stated policy: a named
preference whose player is absent falls back to the active session on the
same call, preference Auto returns exactly the active-session query, the
result is empty exactly when neither lookup yields a session, and the
dispatcher loop resolves with the identical policy. -/
theorem c4_resolution_policy (f : Finder) (pref : Option String) (id : String) :
    (f.find_by_name id = none → resolvePlayer f (some id) = f.find_active) ∧
    (resolvePlayer f none = f.find_active) ∧
    (resolvePlayer f pref = none ↔
      f.find_active = none ∧ ∀ i, pref = some i → f.find_by_name i = none) ∧
    dispatcherResolve f pref = resolvePlayer f pref := by
  refine ⟨?_, rfl, ?_, ?_⟩
  · intro h
    simp [resolvePlayer, h, Option.orElse]
  · cases pref with
    | none => simp [resolvePlayer]
    | some i =>
      cases hb : f.find_by_name i <;>
        simp [resolvePlayer, hb, Option.orElse]
  · cases pref with
    | none =>
      cases ha : f.find_active <;>
        simp [dispatcherResolve, resolvePlayer, ha]
    | some i =>
      cases hb : f.find_by_name i <;> cases ha : f.find_active <;>
        simp [dispatcherResolve, resolvePlayer, hb, ha, Option.orElse]

/-- Witness for C4 in a world with no sessions: a named preference for an
absent player falls back to the (empty) active lookup and resolution is
empty. -/
theorem c4_resolution_policy_witness :
    resolvePlayer emptyFinder (some "spotify") = emptyFinder.find_active ∧
    resolvePlayer emptyFinder (some "spotify") = none :=
  ⟨(c4_resolution_policy emptyFinder (some "spotify") "spotify").1 rfl,
   ((c4_resolution_policy emptyFinder (some "spotify") "spotify").2.2.1).mpr
     ⟨rfl, fun _ h => by cases h; rfl⟩⟩

/-- Counterexample to C5 as stated: when constructing the player finder
fails, the dispatcher loop retains the session handle obtained in a
previous iteration and applies the pending command to it. -/
theorem c5_counterexample :
    dispatcherUpdatePlayer none none (some stalePlayer) = some stalePlayer ∧
    dispatcherIter none none (some .Next) (some stalePlayer)
      = (some stalePlayer, some (stalePlayer, .Next)) := by
  exact ⟨rfl, rfl⟩

/-- C5 (amended): on every dispatcher iteration in which the finder is
constructed, the session handle (and the handle any command is applied
to) is derived fresh from the current preference, independent of the
previous iteration's handle; when finder construction fails, the
dispatcher retains the previous handle; the poller never reuses one — it
emits the default snapshot on finder failure. -/
theorem c5_fresh_resolution (f : Finder) (pref : Option String)
    (cmd : Option Command) (player : Option Player) :
    ((dispatcherIter (some f) pref cmd player).1 = dispatcherResolve f pref) ∧
    (∀ p c, (dispatcherIter (some f) pref cmd player).2 = some (p, c) →
      some p = dispatcherResolve f pref ∧ cmd = some c) ∧
    ((dispatcherIter none pref cmd player).1 = player) ∧
    pollTick none pref = MediaInfo.default := by
  refine ⟨?_, ?_, ?_, rfl⟩
  · unfold dispatcherIter dispatcherUpdatePlayer
    cases cmd <;> cases h : dispatcherResolve f pref <;> simp [h]
  · intro p c h
    cases cmd <;> cases hd : dispatcherResolve f pref <;>
      simp_all [dispatcherIter, dispatcherUpdatePlayer]
  · unfold dispatcherIter dispatcherUpdatePlayer
    cases cmd <;> cases player <;> simp

/-- Witness for C5: with a live finder, the handle a command is applied to
is the fresh resolution, not the stale handle from the last iteration. -/
theorem c5_fresh_resolution_witness :
    some freshPlayer = dispatcherResolve witnessFinder none ∧
    (some Command.Next : Option Command) = some Command.Next :=
  (c5_fresh_resolution witnessFinder none (some .Next) (some stalePlayer)).2.1
    freshPlayer .Next (by decide)

/-- Counterexample to C6 as stated: when the art reference changes from
`http://h/1.png` to absent with title/artist unchanged, the forced-art
flag is set and the art fetch runs, yet the remembered art reference is
not updated to the snapshot's (absent) reference — it keeps the old URL. -/
theorem c6_counterexample :
    forceArtUpdate observedAfterScenario scenarioSnapshotNoArt = true ∧
    scenarioSnapshotNoArt.art_url = none ∧
    (reconcileStep observedAfterScenario scenarioSnapshotNoArt 2).state.last_art_url
      = some "http://h/1.png" := by
  decide

/-- C6 (amended): whenever the forced-art-update flag is true, after the
snapshot is processed `initial_load_done` is true, and the remembered art
reference is updated to the snapshot's art reference only when that
reference is present (and url/title/artist changed); when the new art
reference is absent the remembered reference keeps its old value, while
the displayed art is cleared and the art container hidden. -/
theorem c6_force_update_effects (s : ObservedState) (info : MediaInfo) (now : Nat)
    (_h : forceArtUpdate s info = true) :
    (reconcileStep s info now).state.initial_load_done = true ∧
    (info.art_url = none →
      (reconcileStep s info now).state.last_art_url = s.last_art_url) ∧
    (∀ u, info.art_url = some u →
      (urlChanged s info || titleChanged s info || artistChanged s info) = true →
      (reconcileStep s info now).state.last_art_url = some u) ∧
    (∀ (env : ArtEnv) (ui : UiState), info.art_url = none →
      (updateUiWidgets env ui info true).art = none ∧
      (updateUiWidgets env ui info true).art_container_visible = false) := by
  refine ⟨reconcileStep_init s info now, ?_, ?_, ?_⟩
  · intro hnone
    rw [reconcileStep_art]
    unfold nextLastArtUrl
    split <;> simp [hnone]
  · intro u hu hchanged
    rw [reconcileStep_art]
    unfold nextLastArtUrl
    simp [hchanged, hu]
  · intro env ui hnone
    constructor <;> simp [updateUiWidgets, loadArt, hnone]

/-- Witness for C6 at the art-removal scenario. -/
theorem c6_force_update_effects_witness :
    (reconcileStep observedAfterScenario scenarioSnapshotNoArt 2).state.initial_load_done
      = true ∧
    (reconcileStep observedAfterScenario scenarioSnapshotNoArt 2).state.last_art_url
      = observedAfterScenario.last_art_url ∧
    (updateUiWidgets trivialArtEnv initialUi scenarioSnapshotNoArt true).art = none := by
  have h := c6_force_update_effects observedAfterScenario scenarioSnapshotNoArt 2
    (by decide)
  exact ⟨h.1, h.2.1 rfl, (h.2.2.2 trivialArtEnv initialUi rfl).1⟩

/-- C7 (modelled from the spec; the retry loop is not among the provided
source files): a retry tick performs an attempt exactly when an art
reference is recorded, its outcome is not `Loaded`, and a full retry
interval has elapsed since the last attempt; with a 3000 ms interval and a
failure at time 0, ticks at +1 s and +2 s perform zero attempts and a
further tick at +3.5 s performs exactly one. -/
theorem c7_retry_policy :
    (∀ (interval now : Nat) (result : FetchOutcome) (s : RetryState),
      ((retryTick interval now result s).2 = 1 ↔
        (s.art_ref.isSome = true ∧ s.outcome ≠ .Loaded ∧
         s.last_attempt + interval ≤ now))) ∧
    (retryTicks 3000 failedRetryState [(1000, .Failed), (2000, .Failed)]).2 = 0 ∧
    (retryTicks 3000 failedRetryState
      [(1000, .Failed), (2000, .Failed), (3500, .Loaded)]).2 = 1 := by
  refine ⟨?_, by decide, by decide⟩
  intro interval now result s
  unfold retryTick retryDue
  split <;> rename_i hsplit <;>
    simp_all [Bool.and_eq_true, bne_iff_ne, decide_eq_true_eq]

/-- Witness for C7: the +3.5 s tick after the failure performs one
attempt. -/
theorem c7_retry_policy_witness :
    (retryTick 3000 3500 .Loaded failedRetryState).2 = 1 :=
  (c7_retry_policy.1 3000 3500 .Loaded failedRetryState).mpr (by decide)

/-- Counterexample to C8 as stated: with position 0.25 s and length 0.5 s
(both present, length nonzero) the ratio applied to the button is 0, not
position/length clamped (which is one half). -/
theorem c8_counterexample :
    (updateUiWidgets trivialArtEnv initialUi subSecondInfo false).progress = 0 ∧
    setProgress ((250000000 : ℚ) / 500000000) = 1 / 2 := by
  constructor
  · rfl
  · norm_num [setProgress]

/-- C8 (amended): the progress value applied to the play/pause button is
always in [0, 1]; it is exactly 0 whenever length is absent, position is
absent, or length is shorter than one whole second (in particular when it
is zero); when both are present and the length is at least one second the
value is position divided by length, clamped to [0, 1]. -/
theorem c8_progress (env : ArtEnv) (ui : UiState) (info : MediaInfo)
    (force_art_update : Bool) :
    (0 ≤ (updateUiWidgets env ui info force_art_update).progress ∧
      (updateUiWidgets env ui info force_art_update).progress ≤ 1) ∧
    (info.length = none ∨ info.position = none ∨
        (∃ l, info.length = some l ∧ asSecs l = 0) →
      (updateUiWidgets env ui info force_art_update).progress = 0) ∧
    (∀ p l, info.position = some p → info.length = some l → 0 < asSecs l →
      (updateUiWidgets env ui info force_art_update).progress =
        setProgress ((p : ℚ) / (l : ℚ))) := by
  rw [updateUiWidgets_progress]
  refine ⟨setProgress_mem _, ?_, ?_⟩
  · intro h
    have hraw : progressRaw info.position info.length = 0 := by
      rcases h with h | h | ⟨l, hl, hsec⟩
      · unfold progressRaw
        cases info.position <;> simp [h]
      · unfold progressRaw
        simp [h]
      · unfold progressRaw
        cases info.position <;> simp [hl, hsec]
    rw [hraw]
    norm_num [setProgress]
  · intro p l hp hl hsec
    have hlq : (1000000000 : ℚ) ≠ 0 := by norm_num
    unfold progressRaw
    rw [hp, hl]
    simp only [hsec, if_pos]
    unfold asSecsQ
    rw [div_div_div_cancel_right₀ hlq]

/-- Witness for C8 at a 5 s position in a 10 s track. -/
theorem c8_progress_witness :
    0 ≤ (updateUiWidgets trivialArtEnv initialUi halfwayInfo false).progress ∧
    (updateUiWidgets trivialArtEnv initialUi halfwayInfo false).progress =
      setProgress ((5000000000 : ℚ) / 10000000000) := by
  have h := c8_progress trivialArtEnv initialUi halfwayInfo false
  exact ⟨h.1.1, h.2.2 5000000000 10000000000 rfl rfl (by norm_num [asSecs])⟩

/-- C9: when the command queue's consumer has been dropped, each
command-submission method returns a local error result (no panic); when
the consumer is alive, each submission succeeds immediately. -/
theorem c9_command_submission (offset_micros : Int) :
    clientPlayPause false = .error .disconnected ∧
    clientNext false = .error .disconnected ∧
    clientPrevious false = .error .disconnected ∧
    clientSeek false offset_micros = .error .disconnected ∧
    clientPlayPause true = .ok () ∧
    clientNext true = .ok () ∧
    clientPrevious true = .ok () ∧
    clientSeek true offset_micros = .ok () :=
  ⟨rfl, rfl, rfl, rfl, rfl, rfl, rfl, rfl⟩

/-- C10: enumerating available player identities is total: it returns the
empty sequence when the finder cannot be constructed or listing fails, and
otherwise the identities of the listed players — never an error. -/
theorem c10_available_players :
    getAvailablePlayers none = [] ∧
    (∀ f : Finder, f.find_all = none → getAvailablePlayers (some f) = []) ∧
    (∀ (f : Finder) (ps : List Player), f.find_all = some ps →
      getAvailablePlayers (some f) = ps.map (fun p => p.identity)) := by
  refine ⟨rfl, ?_, ?_⟩
  · intro f h
    simp [getAvailablePlayers, h]
  · intro f ps h
    simp [getAvailablePlayers, h]

/-- Witness for C10: the empty world lists no identities and the witness
world lists exactly the fresh player. -/
theorem c10_available_players_witness :
    getAvailablePlayers (some emptyFinder) = [] ∧
    getAvailablePlayers (some witnessFinder) = ["Fresh"] :=
  ⟨c10_available_players.2.1 emptyFinder rfl,
   c10_available_players.2.2 witnessFinder [freshPlayer] rfl⟩

end Empress
